import Mathlib

/-!
Shallow embedding of the `RedisCache` class from
`src/02_Util/src/cache/redis.ts` (citrineos-core).

The backing Redis store is modelled as an association list from storage
keys to entries carrying a string payload and an optional absolute expiry
time, together with a logical clock `now` and an availability flag used to
model store-unavailable (connectivity) failures.  Every client round trip
(`_client.get`, `_client.set`, `_client.exists`, `_client.del`) is a
function of this state returning `Except CacheError`, mirroring a settled
promise: `Except.ok` is a resolved promise, `Except.error` a rejected one.

The `onChange` operation (the change-wait coordinator) is embedded as a
state machine: a `WaitState` records the settled outcome of the promise
(if any), whether the keyspace subscriber is still open, and whether the
timeout timer is still armed.  The subscriber callback and the timer
callback of the source become a step function `onChangeStep` driven by a
list of events, each paired with the store state at the moment the event
is handled.
-/

/-- Errors a cache operation can settle with: a store-unavailable
(connectivity/backend) rejection from the Redis client, or a format error
thrown by a caller-supplied deserialization step. -/
inductive CacheError where
  | storeUnavailable
  | format (msg : String)
deriving Repr, DecidableEq

/-- One stored entry: the opaque string payload and, when a TTL was
attached at write time, the absolute time at which it expires. -/
structure Entry where
  value : String
  expiresAt : Option Nat
deriving Repr, DecidableEq

/-- The modelled Redis store: a logical clock, an availability flag (false
models a connectivity failure: every client call rejects), and the keyed
data. -/
structure RedisState where
  now : Nat
  available : Bool
  data : List (String × Entry)
deriving Repr, DecidableEq

/-- Association-list lookup on the store data. -/
def lookupEntry : List (String × Entry) → String → Option Entry
  | [], _ => none
  | (k2, e) :: rest, k => if k2 = k then some e else lookupEntry rest k

/-- Association-list update: replaces the binding for `k` if present,
otherwise appends it. -/
def setData : List (String × Entry) → String → Entry → List (String × Entry)
  | [], k, e => [(k, e)]
  | (k2, e2) :: rest, k, e =>
    if k2 = k then (k, e) :: rest else (k2, e2) :: setData rest k e

/-- Association-list removal of a key. -/
def removeKey : List (String × Entry) → String → List (String × Entry)
  | [], _ => []
  | (k2, e2) :: rest, k =>
    if k2 = k then removeKey rest k else (k2, e2) :: removeKey rest k

/-- The live (non-expired) payload currently stored under storage key `k`,
if any.  An entry whose expiry time has been reached is indistinguishable
from a missing entry, matching Redis TTL semantics. -/
def liveValue (s : RedisState) (k : String) : Option String :=
  match lookupEntry s.data k with
  | some e =>
    match e.expiresAt with
    | some t => if s.now < t then some e.value else none
    | none => some e.value
  | none => none

/-- Models `this._client.get(key)`: resolves with the live payload or null,
rejects when the store is unavailable. -/
def clientGet (s : RedisState) (k : String) : Except CacheError (Option String) :=
  if s.available then Except.ok (liveValue s k) else Except.error CacheError.storeUnavailable

/-- Models `this._client.exists(key)`: resolves with the number of existing
keys (0 or 1 here), rejects when the store is unavailable. -/
def clientExists (s : RedisState) (k : String) : Except CacheError Nat :=
  if s.available then Except.ok (if (liveValue s k).isSome then 1 else 0)
  else Except.error CacheError.storeUnavailable

/-- Models `this._client.set(key, value, { EX: expireSeconds })`: writes
the entry (expiry `now + EX` when a TTL is given) and resolves with the
simple-string reply "OK". -/
def clientSet (s : RedisState) (k v : String) (ex : Option Nat) :
    Except CacheError (RedisState × Option String) :=
  if s.available then
    Except.ok
      ({ s with data := setData s.data k ⟨v, Option.map (fun t => s.now + t) ex⟩ }, some "OK")
  else Except.error CacheError.storeUnavailable

/-- Models `this._client.set(key, value, { EX: expireSeconds, NX: true })`:
when a live entry exists the write is skipped and the reply is null;
otherwise the entry is written and the reply is "OK". -/
def clientSetNX (s : RedisState) (k v : String) (ex : Option Nat) :
    Except CacheError (RedisState × Option String) :=
  if s.available then
    if (liveValue s k).isSome then Except.ok (s, none)
    else
      Except.ok
        ({ s with data := setData s.data k ⟨v, Option.map (fun t => s.now + t) ex⟩ }, some "OK")
  else Except.error CacheError.storeUnavailable

/-- Models `this._client.del(key)`: removes the key and resolves with the
number of keys actually removed. -/
def clientDel (s : RedisState) (k : String) : Except CacheError (RedisState × Nat) :=
  if s.available then
    Except.ok ({ s with data := removeKey s.data k },
      if (liveValue s k).isSome then 1 else 0)
  else Except.error CacheError.storeUnavailable

/-- Models the line `namespace = namespace || "default"` present at the top
of every RedisCache method: an absent namespace, and also the empty string
(falsy in JavaScript), default to "default". -/
def nsResolve (ns : Option String) : String :=
  match ns with
  | some s => if s = "" then "default" else s
  | none => "default"

/-- Models the line ``key = `${namespace}:${key}` ``: the storage key is the
resolved namespace, a colon, and the caller's key. -/
def storageKey (ns : Option String) (key : String) : String :=
  nsResolve ns ++ ":" ++ key

/-- Models `deasyncPromise`: it blocks the calling thread until the promise
settles and then returns the resolved value or rethrows the rejection.  On
the settled-outcome model a promise is already its outcome, so this is the
identity. -/
def deasyncPromise {α : Type} (settled : α) : α := settled

/-- `RedisCache.exists` from the source: prefixes the key and maps the
client reply through `result === 1`.  (Named `existsKey` because `exists`
is a Lean keyword.) -/
def RedisCache.existsKey (s : RedisState) (key : String) (ns : Option String) :
    Except CacheError Bool :=
  match clientExists s (storageKey ns key) with
  | Except.error e => Except.error e
  | Except.ok result => Except.ok (decide (result = 1))

/-- `RedisCache.remove` from the source: prefixes the key and maps the
client reply through `result === 1`. -/
def RedisCache.remove (s : RedisState) (key : String) (ns : Option String) :
    Except CacheError (RedisState × Bool) :=
  match clientDel s (storageKey ns key) with
  | Except.error e => Except.error e
  | Except.ok (s2, result) => Except.ok (s2, decide (result = 1))

/-- `RedisCache.get` from the source, in the mode where no
`classConstructor` is supplied: the continuation is
`if (result) { return result as T; } return null;` — a falsy payload
(null, or the empty string) becomes null, a truthy payload is returned
unchanged. -/
def RedisCache.getString (s : RedisState) (key : String) (ns : Option String) :
    Except CacheError (Option String) :=
  match clientGet s (storageKey ns key) with
  | Except.error e => Except.error e
  | Except.ok result =>
    Except.ok
      (match result with
        | some r => if r = "" then none else some r
        | none => none)

/-- `RedisCache.get` from the source, in the mode where a
`classConstructor` is supplied: a truthy payload is passed through
`plainToInstance(classConstructor(), JSON.parse(result))`, modelled as a
caller-supplied fallible deserializer `deser`; a throw inside the
continuation rejects the returned promise. -/
def RedisCache.getWith {T : Type} (deser : String → Except CacheError T)
    (s : RedisState) (key : String) (ns : Option String) :
    Except CacheError (Option T) :=
  match clientGet s (storageKey ns key) with
  | Except.error e => Except.error e
  | Except.ok result =>
    match result with
    | some r =>
      if r = "" then Except.ok none
      else
        match deser r with
        | Except.error e => Except.error e
        | Except.ok t => Except.ok (some t)
    | none => Except.ok none

/-- `RedisCache.getSync` from the source, no-`classConstructor` mode: the
source duplicates the `get` pipeline inline and wraps it in
`deasyncPromise`. -/
def RedisCache.getSyncString (s : RedisState) (key : String) (ns : Option String) :
    Except CacheError (Option String) :=
  deasyncPromise
    (match clientGet s (storageKey ns key) with
      | Except.error e => Except.error e
      | Except.ok result =>
        Except.ok
          (match result with
            | some r => if r = "" then none else some r
            | none => none))

/-- `RedisCache.getSync` from the source, `classConstructor` mode. -/
def RedisCache.getSyncWith {T : Type} (deser : String → Except CacheError T)
    (s : RedisState) (key : String) (ns : Option String) :
    Except CacheError (Option T) :=
  deasyncPromise
    (match clientGet s (storageKey ns key) with
      | Except.error e => Except.error e
      | Except.ok result =>
        match result with
        | some r =>
          if r = "" then Except.ok none
          else
            match deser r with
            | Except.error e => Except.error e
            | Except.ok t => Except.ok (some t)
        | none => Except.ok none)

/-- `RedisCache.set` from the source: prefixes the key, writes through the
client, and maps the reply through
`if (result) { return result === "OK"; } return false;`. -/
def RedisCache.set (s : RedisState) (key value : String) (ns : Option String)
    (expireSeconds : Option Nat) : Except CacheError (RedisState × Bool) :=
  match clientSet s (storageKey ns key) value expireSeconds with
  | Except.error e => Except.error e
  | Except.ok (s2, result) =>
    Except.ok (s2,
      match result with
      | some r => if r = "" then false else decide (r = "OK")
      | none => false)

/-- `RedisCache.setIfNotExist` from the source: same as `set` but with the
NX flag on the client call. -/
def RedisCache.setIfNotExist (s : RedisState) (key value : String) (ns : Option String)
    (expireSeconds : Option Nat) : Except CacheError (RedisState × Bool) :=
  match clientSetNX s (storageKey ns key) value expireSeconds with
  | Except.error e => Except.error e
  | Except.ok (s2, result) =>
    Except.ok (s2,
      match result with
      | some r => if r = "" then false else decide (r = "OK")
      | none => false)

/-- `RedisCache.setSync` from the source: the `set` pipeline duplicated
inline and wrapped in `deasyncPromise`. -/
def RedisCache.setSync (s : RedisState) (key value : String) (ns : Option String)
    (expireSeconds : Option Nat) : Except CacheError (RedisState × Bool) :=
  deasyncPromise
    (match clientSet s (storageKey ns key) value expireSeconds with
      | Except.error e => Except.error e
      | Except.ok (s2, result) =>
        Except.ok (s2,
          match result with
          | some r => if r = "" then false else decide (r = "OK")
          | none => false))

/-- One event observed by an in-flight `onChange` call: either a message
delivered on the subscribed keyspace channel
`__keyspace@0__:<storageKey>` (the message is the name of the Redis
command/event that touched the key), or the firing of the
`setTimeout` timer. -/
inductive WaitEvent where
  | msg (message : String)
  | timerFire
deriving Repr, DecidableEq

/-- The observable state of one in-flight `onChange` promise: its settled
outcome if it has resolved (`Except.error` models resolving with a
rejected `get` promise, which rejects the outer promise), whether the
dedicated subscriber client is still open (`subscriber.quit()` not yet
called), and whether the timeout timer is still armed. -/
structure WaitState where
  outcome : Option (Except CacheError (Option String))
  subscriberOpen : Bool
  timerArmed : Bool
deriving Repr

/-- Promise-resolution semantics: `resolve` settles the promise only if it
is still pending; any later call is a no-op. -/
def resolveOnce (cur : Option (Except CacheError (Option String)))
    (r : Except CacheError (Option String)) : Option (Except CacheError (Option String)) :=
  match cur with
  | some o => some o
  | none => some r

/-- One step of the `onChange` callbacks from the source.  `key` is the
ALREADY-PREFIXED storage key (the method reassigns
``key = `${namespace}:${key}` `` before building the promise) and `ns` the
resolved namespace string; the closures capture both.  The subscriber
callback switches on the message: on "set" it calls
`resolve(this.get(key, namespace, ...))` — note that it passes the
already-prefixed `key` back into `get`, which prefixes again — and quits
the subscriber; on "del" or "expire" it resolves with null and quits; any
other message does nothing.  The timer callback likewise resolves with
`this.get(key, namespace, ...)` and quits the subscriber; the source never
calls `clearTimeout`, so nothing else ever disarms the timer. -/
def onChangeStep (st : RedisState) (key ns : String) (w : WaitState) (e : WaitEvent) :
    WaitState :=
  match e with
  | WaitEvent.msg m =>
    if m = "set" then
      { w with outcome := resolveOnce w.outcome (RedisCache.getString st key (some ns)),
               subscriberOpen := false }
    else if m = "del" then
      { w with outcome := resolveOnce w.outcome (Except.ok none), subscriberOpen := false }
    else if m = "expire" then
      { w with outcome := resolveOnce w.outcome (Except.ok none), subscriberOpen := false }
    else w
  | WaitEvent.timerFire =>
    if w.timerArmed then
      { w with outcome := resolveOnce w.outcome (RedisCache.getString st key (some ns)),
               subscriberOpen := false, timerArmed := false }
    else w

/-- The state of an `onChange` promise immediately after construction: no
outcome yet, subscriber just created and subscribed, timer just armed. -/
def onChangeInit : WaitState := ⟨none, true, true⟩

/-- Drives a wait state through a list of events, each paired with the
store state at the moment that event is handled. -/
def stepList (key ns : String) (w : WaitState) :
    List (RedisState × WaitEvent) → WaitState
  | [] => w
  | p :: rest => stepList key ns (onChangeStep p.1 key ns w p.2) rest

/-- `RedisCache.onChange` from the source, as a function of the event
history: the namespace is defaulted, the storage key prefixed, and the
initial wait state driven through the events.  `waitSeconds` only fixes
WHEN the `timerFire` event occurs in real time; in the model that timing
is carried by the position of `timerFire` in the event list. -/
def RedisCache.onChange (key : String) (waitSeconds : Nat) (ns : Option String)
    (events : List (RedisState × WaitEvent)) : WaitState :=
  stepList (storageKey ns key) (nsResolve ns) onChangeInit events

/-- Empty, reachable store. -/
def stEmpty : RedisState := ⟨0, true, []⟩

/-- Store after a successful `set("k", "X")` in the default namespace. -/
def stX : RedisState := ⟨0, true, [("default:k", ⟨"X", none⟩)]⟩

/-- Store holding a pre-wait value "old" for key "k" in the default
namespace, never mutated afterwards. -/
def stOld : RedisState := ⟨0, true, [("default:k", ⟨"old", none⟩)]⟩

/-- Store whose backing connection is down: every client call rejects. -/
def stDown : RedisState := ⟨0, false, [("default:k", ⟨"X", none⟩)]⟩

/-- Updating an association list and then looking up the same key yields
the new entry. -/
theorem lookupEntry_setData (d : List (String × Entry)) (k : String) (e : Entry) :
    lookupEntry (setData d k e) k = some e := by
  induction d with
  | nil => simp [setData, lookupEntry]
  | cons p rest ih =>
    obtain ⟨k2, e2⟩ := p
    by_cases h : k2 = k
    · simp [setData, h, lookupEntry]
    · simp [setData, h, lookupEntry, ih]

/-- Claim C1 (code bug witness): after `set("k", "X")` succeeds in the
default namespace, the arrival of the resulting "set" keyspace event does
NOT resolve the in-flight wait with "X": the Set-event handler passes the
already-prefixed storage key back into `get`, which prefixes it again, so
it reads "default:default:k" and the wait resolves with null — even though
`get("k")` at that very moment returns "X". -/
theorem c1_set_event_resolves_with_null :
    RedisCache.set stEmpty "k" "X" none none = Except.ok (stX, true) ∧
    (RedisCache.onChange "k" 5 none [(stX, WaitEvent.msg "set")]).outcome =
      some (Except.ok none) ∧
    RedisCache.getString stX "k" none = Except.ok (some "X") :=
  ⟨rfl, rfl, rfl⟩

/-- Claim C2 (code bug witness): on a key holding "old" that is never
mutated, the timeout path does NOT resolve with what `get("k")` would
return at that moment (namely "old"): the timer callback passes the
already-prefixed storage key back into `get`, which prefixes it again, so
the wait resolves with null. -/
theorem c2_timeout_resolves_with_null :
    (RedisCache.onChange "k" 1 none [(stOld, WaitEvent.timerFire)]).outcome =
      some (Except.ok none) ∧
    RedisCache.getString stOld "k" none = Except.ok (some "old") :=
  ⟨rfl, rfl⟩

/-- Claim C3: while a wait is pending, a "del" keyspace event (the Removed
mutation) resolves it with absent directly and closes the subscriber.  The
statement holds for EVERY store state — including stores still holding a
stale prior value and stores whose connection is down, on which any read
would have failed — so no read is performed and no stale value can be
returned. -/
theorem c3_removed_resolves_absent (st : RedisState) (key ns : String) (w : WaitState)
    (hp : w.outcome = none) :
    (onChangeStep st key ns w (WaitEvent.msg "del")).outcome = some (Except.ok none) ∧
    (onChangeStep st key ns w (WaitEvent.msg "del")).subscriberOpen = false := by
  simp [onChangeStep, resolveOnce, hp]

/-- Claim C3 witness: instantiated on a down store still holding a stale
prior value for the watched key. -/
theorem c3_removed_resolves_absent_witness :
    (onChangeStep stDown "default:k" "default" onChangeInit (WaitEvent.msg "del")).outcome =
      some (Except.ok none) ∧
    (onChangeStep stDown "default:k" "default" onChangeInit (WaitEvent.msg "del")).subscriberOpen =
      false :=
  c3_removed_resolves_absent stDown "default:k" "default" onChangeInit rfl

/-- Claim C8: the blocking variants `getSync` and `setSync` return exactly
the same success or error outcome as running the asynchronous `get` and
`set` to completion on the same inputs and store state, for every key,
namespace, value, TTL and deserializer. -/
theorem c8_sync_variants_agree {T : Type} (deser : String → Except CacheError T)
    (s : RedisState) (key value : String) (ns : Option String) (ttl : Option Nat) :
    RedisCache.getSyncString s key ns = RedisCache.getString s key ns ∧
    RedisCache.getSyncWith deser s key ns = RedisCache.getWith deser s key ns ∧
    RedisCache.setSync s key value ns ttl = RedisCache.set s key value ns ttl :=
  ⟨rfl, rfl, rfl⟩

/-- Claim C9: after `set(k, "", ns)` succeeds (storing the empty string),
`get(k, ns)` returns absent while `exists(k, ns)` returns true — the
falsy check `if (result)` in `get` cannot distinguish a stored
empty-string payload from a missing entry. -/
theorem c9_empty_string_absent_but_exists (s : RedisState) (k : String) (ns : Option String)
    (hav : s.available = true) :
    ∃ s2, RedisCache.set s k "" ns none = Except.ok (s2, true) ∧
      RedisCache.getString s2 k ns = Except.ok none ∧
      RedisCache.existsKey s2 k ns = Except.ok true := by
  refine ⟨{ s with data := setData s.data (storageKey ns k) ⟨"", none⟩ }, ?_, ?_, ?_⟩
  · simp [RedisCache.set, clientSet, hav]
  · simp [RedisCache.getString, clientGet, hav, liveValue, lookupEntry_setData]
  · simp [RedisCache.existsKey, clientExists, hav, liveValue, lookupEntry_setData]

/-- Claim C9 witness: the empty-string scenario on the concrete empty
store. -/
theorem c9_empty_string_absent_but_exists_witness :
    ∃ s2, RedisCache.set stEmpty "k" "" none none = Except.ok (s2, true) ∧
      RedisCache.getString s2 "k" none = Except.ok none ∧
      RedisCache.existsKey s2 "k" none = Except.ok true :=
  c9_empty_string_absent_but_exists stEmpty "k" none rfl

/-- Store after a successful `set("k", "")` in the default namespace. -/
def stEmptyVal : RedisState := ⟨0, true, [("default:k", ⟨"", none⟩)]⟩

/-- Claim C4 counterexample: for the string value v = "", a successful
`set(k, v)` immediately followed by `get(k)` does NOT return v: the set
succeeds (and stores the empty string), but `get` returns absent, which
differs from returning the empty string. -/
theorem c4_empty_string_counterexample :
    RedisCache.set stEmpty "k" "" none none = Except.ok (stEmptyVal, true) ∧
    RedisCache.getString stEmptyVal "k" none = Except.ok none ∧
    (Except.ok none : Except CacheError (Option String)) ≠ Except.ok (some "") :=
  ⟨rfl, rfl, by simp⟩

/-- Claim C4, amended: for every NONEMPTY string value v (and a TTL that is
absent or positive, so that no expiry intervenes), a successful
`set(k, v, ns, ttl)` followed immediately by `get(k, ns)` returns exactly
v — the stored payload is never mutated. -/
theorem c4_set_get_roundtrip (s : RedisState) (k v : String) (ns : Option String)
    (ttl : Option Nat) (hav : s.available = true) (hv : v ≠ "")
    (httl : ttl = none ∨ ∃ t, ttl = some t ∧ 0 < t) :
    ∃ s2, RedisCache.set s k v ns ttl = Except.ok (s2, true) ∧
      RedisCache.getString s2 k ns = Except.ok (some v) := by
  refine ⟨{ s with data := setData s.data (storageKey ns k) ⟨v, Option.map (fun t => s.now + t) ttl⟩ }, ?_, ?_⟩
  · simp [RedisCache.set, clientSet, hav]
  · rcases httl with h | ⟨t, ht, htpos⟩
    · subst h
      simp [RedisCache.getString, clientGet, hav, liveValue, lookupEntry_setData, hv]
    · subst ht
      simp [RedisCache.getString, clientGet, hav, liveValue, lookupEntry_setData, hv, htpos]

/-- Claim C4 witness: the amended round trip instantiated with value "v"
and a 60-second TTL on the empty store. -/
theorem c4_set_get_roundtrip_witness :
    ∃ s2, RedisCache.set stEmpty "k" "v" none (some 60) = Except.ok (s2, true) ∧
      RedisCache.getString s2 "k" none = Except.ok (some "v") :=
  c4_set_get_roundtrip stEmpty "k" "v" none (some 60) rfl (by simp)
    (Or.inr ⟨60, rfl, by norm_num⟩)

/-- Claim C5: `setIfNotExist` succeeds and writes the entry iff no live
entry currently exists for the storage key; when a live entry exists it
returns false and returns the store state completely unchanged, so any
subsequent `get` still sees the pre-existing value. -/
theorem c5_setIfAbsent_spec (s : RedisState) (k v : String) (ns : Option String)
    (ttl : Option Nat) (hav : s.available = true) :
    ((liveValue s (storageKey ns k)).isSome = true →
      RedisCache.setIfNotExist s k v ns ttl = Except.ok (s, false)) ∧
    ((liveValue s (storageKey ns k)).isSome = false →
      RedisCache.setIfNotExist s k v ns ttl =
        Except.ok ({ s with data := setData s.data (storageKey ns k) ⟨v, Option.map (fun t => s.now + t) ttl⟩ }, true) ∧
      lookupEntry (setData s.data (storageKey ns k) ⟨v, Option.map (fun t => s.now + t) ttl⟩)
        (storageKey ns k) = some ⟨v, Option.map (fun t => s.now + t) ttl⟩) := by
  constructor
  · intro hlive
    simp [RedisCache.setIfNotExist, clientSetNX, hav, hlive]
  · intro hdead
    exact ⟨by simp [RedisCache.setIfNotExist, clientSetNX, hav, hdead],
      lookupEntry_setData _ _ _⟩

/-- Claim C5 witness: instantiated on the store already holding "X" under
the watched key (the occupied branch applies with a false return and an
unchanged store). -/
theorem c5_setIfAbsent_spec_witness :
    ((liveValue stX (storageKey none "k")).isSome = true →
      RedisCache.setIfNotExist stX "k" "Y" none none = Except.ok (stX, false)) ∧
    ((liveValue stX (storageKey none "k")).isSome = false →
      RedisCache.setIfNotExist stX "k" "Y" none none =
        Except.ok ({ stX with data := setData stX.data (storageKey none "k") ⟨"Y", Option.map (fun t => stX.now + t) none⟩ }, true) ∧
      lookupEntry (setData stX.data (storageKey none "k")
          ⟨"Y", Option.map (fun t => stX.now + t) none⟩)
        (storageKey none "k") = some ⟨"Y", Option.map (fun t => stX.now + t) none⟩) :=
  c5_setIfAbsent_spec stX "k" "Y" none none rfl

/-- Claim C6 counterexample: when the Set-event path wins the race, the
wait resolves and the subscriber is closed, but the timeout timer is NOT
cancelled — the source never calls `clearTimeout`, so the timer stays
armed after resolution. -/
theorem c6_timer_not_cancelled_counterexample :
    (RedisCache.onChange "k" 5 none [(stX, WaitEvent.msg "set")]).outcome.isSome = true ∧
    (RedisCache.onChange "k" 5 none [(stX, WaitEvent.msg "set")]).subscriberOpen = false ∧
    (RedisCache.onChange "k" 5 none [(stX, WaitEvent.msg "set")]).timerArmed = true :=
  ⟨rfl, rfl, rfl⟩

/-- Claim C6, amended: every wait settles at most once (once the outcome is
set, no later event changes it), and any path that resolves a pending wait
also closes the subscriber; but an event path never disarms the timeout
timer — the timer stays armed until it fires on its own, its late
resolution attempt then being a no-op. -/
theorem c6_exactly_once_subscription_released (st : RedisState) (key ns : String)
    (w : WaitState) (e : WaitEvent) :
    (w.outcome.isSome = true → (onChangeStep st key ns w e).outcome = w.outcome) ∧
    (w.outcome = none → (onChangeStep st key ns w e).outcome.isSome = true →
      (onChangeStep st key ns w e).subscriberOpen = false) ∧
    (∀ m, e = WaitEvent.msg m → (onChangeStep st key ns w e).timerArmed = w.timerArmed) := by
  cases e with
  | msg m =>
    refine ⟨?_, ?_, ?_⟩
    · intro hsome
      obtain ⟨o, ho⟩ := Option.isSome_iff_exists.mp hsome
      by_cases h1 : m = "set"
      · simp [onChangeStep, h1, resolveOnce, ho]
      · by_cases h2 : m = "del"
        · simp [onChangeStep, h1, h2, resolveOnce, ho]
        · by_cases h3 : m = "expire"
          · simp [onChangeStep, h1, h2, h3, resolveOnce, ho]
          · simp [onChangeStep, h1, h2, h3]
    · intro hp hres
      by_cases h1 : m = "set"
      · simp [onChangeStep, h1]
      · by_cases h2 : m = "del"
        · simp [onChangeStep, h1, h2]
        · by_cases h3 : m = "expire"
          · simp [onChangeStep, h1, h2, h3]
          · simp [onChangeStep, h1, h2, h3, hp] at hres
    · intro m2 hm
      by_cases h1 : m = "set"
      · simp [onChangeStep, h1]
      · by_cases h2 : m = "del"
        · simp [onChangeStep, h1, h2]
        · by_cases h3 : m = "expire"
          · simp [onChangeStep, h1, h2, h3]
          · simp [onChangeStep, h1, h2, h3]
  | timerFire =>
    refine ⟨?_, ?_, ?_⟩
    · intro hsome
      obtain ⟨o, ho⟩ := Option.isSome_iff_exists.mp hsome
      by_cases ht : w.timerArmed = true
      · simp [onChangeStep, ht, resolveOnce, ho]
      · simp [onChangeStep, ht]
    · intro hp hres
      by_cases ht : w.timerArmed = true
      · simp [onChangeStep, ht]
      · simp [onChangeStep, ht, hp] at hres
    · intro m hm
      simp at hm

/-- Claim C6 witness: the amended statement instantiated at a pending wait
receiving a "set" event. -/
theorem c6_exactly_once_subscription_released_witness :
    (onChangeInit.outcome.isSome = true →
      (onChangeStep stX "default:k" "default" onChangeInit (WaitEvent.msg "set")).outcome =
        onChangeInit.outcome) ∧
    (onChangeInit.outcome = none →
      (onChangeStep stX "default:k" "default" onChangeInit (WaitEvent.msg "set")).outcome.isSome =
        true →
      (onChangeStep stX "default:k" "default" onChangeInit
        (WaitEvent.msg "set")).subscriberOpen = false) ∧
    (∀ m, WaitEvent.msg "set" = WaitEvent.msg m →
      (onChangeStep stX "default:k" "default" onChangeInit (WaitEvent.msg "set")).timerArmed =
        onChangeInit.timerArmed) :=
  c6_exactly_once_subscription_released stX "default:k" "default" onChangeInit
    (WaitEvent.msg "set")

/-- Claim C7: when the backing store is unavailable, the `get` issued by
the Set-event path or by the timeout path fails, that store-unavailable
error becomes the settled outcome of the wait (the promise rejects — the
error is not downgraded to absent), and the subscriber is still closed on
both paths. -/
theorem c7_get_failure_propagates (st : RedisState) (key : String) (ns : Option String)
    (w : WaitState) (hdown : st.available = false) (hp : w.outcome = none) :
    ((onChangeStep st (storageKey ns key) (nsResolve ns) w (WaitEvent.msg "set")).outcome =
        some (Except.error CacheError.storeUnavailable) ∧
      (onChangeStep st (storageKey ns key) (nsResolve ns) w
        (WaitEvent.msg "set")).subscriberOpen = false) ∧
    (w.timerArmed = true →
      (onChangeStep st (storageKey ns key) (nsResolve ns) w WaitEvent.timerFire).outcome =
        some (Except.error CacheError.storeUnavailable) ∧
      (onChangeStep st (storageKey ns key) (nsResolve ns) w
        WaitEvent.timerFire).subscriberOpen = false) := by
  constructor
  · constructor
    · simp [onChangeStep, resolveOnce, hp, RedisCache.getString, clientGet, hdown]
    · simp [onChangeStep]
  · intro ht
    constructor
    · simp [onChangeStep, ht, resolveOnce, hp, RedisCache.getString, clientGet, hdown]
    · simp [onChangeStep, ht]

/-- Claim C7 witness: instantiated on the down store with a fresh pending
wait. -/
theorem c7_get_failure_propagates_witness :
    ((onChangeStep stDown (storageKey none "k") (nsResolve none) onChangeInit
        (WaitEvent.msg "set")).outcome = some (Except.error CacheError.storeUnavailable) ∧
      (onChangeStep stDown (storageKey none "k") (nsResolve none) onChangeInit
        (WaitEvent.msg "set")).subscriberOpen = false) ∧
    (onChangeInit.timerArmed = true →
      (onChangeStep stDown (storageKey none "k") (nsResolve none) onChangeInit
        WaitEvent.timerFire).outcome = some (Except.error CacheError.storeUnavailable) ∧
      (onChangeStep stDown (storageKey none "k") (nsResolve none) onChangeInit
        WaitEvent.timerFire).subscriberOpen = false) :=
  c7_get_failure_propagates stDown "k" none onChangeInit rfl rfl

/-- The subscriber callback resolves the wait only for these three channel
messages: the switch in the source has cases for "set", "del" and
"expire" and an empty default branch. -/
def qualifies (m : String) : Bool := m == "set" || m == "del" || m == "expire"

/-- A message outside the three handled cases leaves the wait state
completely unchanged (the default branch of the switch does nothing). -/
theorem onChangeStep_nonqual (st : RedisState) (key ns : String) (w : WaitState) (m : String)
    (hq : qualifies m = false) : onChangeStep st key ns w (WaitEvent.msg m) = w := by
  simp [qualifies] at hq
  obtain ⟨⟨h1, h2⟩, h3⟩ := hq
  simp [onChangeStep, h1, h2, h3]

/-- A whole history of unhandled messages leaves the wait state unchanged. -/
theorem stepList_nonqual (key ns : String) (w : WaitState)
    (pairs : List (RedisState × WaitEvent))
    (h : ∀ p ∈ pairs, ∃ m, p.2 = WaitEvent.msg m ∧ qualifies m = false) :
    stepList key ns w pairs = w := by
  induction pairs with
  | nil => rfl
  | cons p rest ih =>
    obtain ⟨m, hm, hq⟩ := h p (List.mem_cons_self p rest)
    rw [stepList, hm, onChangeStep_nonqual p.1 key ns w m hq]
    exact ih (fun q hq2 => h q (List.mem_cons_of_mem p hq2))

/-- Claim C10: a pending wait resolves on a channel message iff that
message is exactly "set", "del" or "expire"; any other message (including
the "expired" event Redis emits on natural TTL expiry) leaves the wait
state untouched, a whole history of such messages keeps it pending, and
the still-armed timer then resolves it when it fires. -/
theorem c10_only_listed_messages_resolve (st : RedisState) (key ns : String) (w : WaitState)
    (m : String) (pairs : List (RedisState × WaitEvent)) (hp : w.outcome = none) :
    ((onChangeStep st key ns w (WaitEvent.msg m)).outcome.isSome = qualifies m) ∧
    (qualifies m = false → onChangeStep st key ns w (WaitEvent.msg m) = w) ∧
    ((∀ p ∈ pairs, ∃ m2, p.2 = WaitEvent.msg m2 ∧ qualifies m2 = false) →
      stepList key ns w pairs = w) ∧
    (w.timerArmed = true → (onChangeStep st key ns w WaitEvent.timerFire).outcome.isSome = true) := by
  refine ⟨?_, fun hq => onChangeStep_nonqual st key ns w m hq,
    fun h => stepList_nonqual key ns w pairs h, ?_⟩
  · by_cases h1 : m = "set"
    · simp [onChangeStep, h1, resolveOnce, hp, qualifies]
    · by_cases h2 : m = "del"
      · simp [onChangeStep, h1, h2, resolveOnce, hp, qualifies]
      · by_cases h3 : m = "expire"
        · simp [onChangeStep, h1, h2, h3, resolveOnce, hp, qualifies]
        · simp [onChangeStep, h1, h2, h3, hp, qualifies]
  · intro ht
    simp [onChangeStep, ht, resolveOnce, hp]

/-- Claim C10 witness: instantiated with the message "expired" (the event
Redis actually emits on natural TTL expiry) and a history of two
unhandled messages left pending until the timer would fire. -/
theorem c10_only_listed_messages_resolve_witness :
    ((onChangeStep stOld "default:k" "default" onChangeInit
        (WaitEvent.msg "expired")).outcome.isSome = qualifies "expired") ∧
    (qualifies "expired" = false →
      onChangeStep stOld "default:k" "default" onChangeInit (WaitEvent.msg "expired") =
        onChangeInit) ∧
    ((∀ p ∈ [(stOld, WaitEvent.msg "expired"), (stOld, WaitEvent.msg "rename")],
        ∃ m2, p.2 = WaitEvent.msg m2 ∧ qualifies m2 = false) →
      stepList "default:k" "default" onChangeInit
        [(stOld, WaitEvent.msg "expired"), (stOld, WaitEvent.msg "rename")] = onChangeInit) ∧
    (onChangeInit.timerArmed = true →
      (onChangeStep stOld "default:k" "default" onChangeInit
        WaitEvent.timerFire).outcome.isSome = true) :=
  c10_only_listed_messages_resolve stOld "default:k" "default" onChangeInit "expired"
    [(stOld, WaitEvent.msg "expired"), (stOld, WaitEvent.msg "rename")] rfl
